import Mathlib

/-!
# Sorter interface firmware: verification of the protocol layer

A shallow embedding of the command-processing path of
`software/firmware/sorter_interface_firmware/sorter_interface_firmware.cpp`:
the CRC-32 integrity function, the frame codec, the reception pipeline of
`main`, and the command dispatcher (the big `switch` over command codes).
Machine integers are modelled as `Nat`/`Int`; byte values are `Nat`s below
256 on every reachable path.

The stepper motion class and the COBS codec are declared in headers that are
not part of this source tree; their operations are modelled from the design
document (section 4.2 FrameCodec, section 4.3 MotionAxis) and are marked
`Modelled from the spec` in their doc comments.
-/

set_option autoImplicit false
set_option maxRecDepth 100000

namespace Sorter

/-! ## Board configuration constants (from the hardcoded board block) -/

def DEVICE_ADDRESS : Nat := 0

def STEPPER_COUNT : Nat := 4

def DIGITAL_INPUT_COUNT : Nat := 4

def digital_input_pins : List Nat := [9, 8, 13, 12]

def DIGITAL_OUTPUT_COUNT : Nat := 2

def digital_output_pins : List Nat := [14, 15]

/-! ## Integrity: CRC-32 (function `crc32` in the source) -/

/-- One shift step of the inner loop of `crc32`: if the LSB is set, shift
right and XOR with the polynomial 0xEDB88320, else just shift. -/
def crc32Update (crc : Nat) : Nat :=
  if crc % 2 = 1 then (crc / 2) ^^^ 0xEDB88320 else crc / 2

/-- Per-byte action of `crc32`: XOR the byte into the register, then run the
shift step eight times. -/
def crc32Byte (crc b : Nat) : Nat := crc32Update^[8] (crc ^^^ b)

/-- `crc32` from the source: fold the per-byte action over the data starting
from 0xFFFFFFFF, then invert the final value (bitwise complement of a 32-bit
register is XOR with 0xFFFFFFFF). -/
def crc32 (data : List Nat) : Nat :=
  (data.foldl crc32Byte 0xFFFFFFFF) ^^^ 0xFFFFFFFF

/-- The checksum algorithm as worded by the spec (section 4.1): initial
register 0xFFFFFFFF, each input byte XORed into the low byte, then eight
bitwise right shifts with conditional XOR against the polynomial depending on
the low bit, final result bit-complemented. Stated with `testBit`/`>>>` so it
can be compared against the source translation `crc32`. -/
def crcSpecStep (r : Nat) : Nat :=
  if r.testBit 0 then (r >>> 1) ^^^ 0xEDB88320 else r >>> 1

/-- Spec wording of the per-byte action, companion of `crcSpecStep`. -/
def crcSpecByte (r b : Nat) : Nat := crcSpecStep^[8] (r ^^^ b)

/-- Spec wording of the whole checksum, to be proved equal to `crc32`. -/
def crc32Spec (data : List Nat) : Nat :=
  (data.foldl crcSpecByte 0xFFFFFFFF) ^^^ 0xFFFFFFFF

/-! ## Little-endian 32-bit helpers (memcpy of 4 bytes in the source) -/

/-- Read the little-endian 32-bit value stored at byte offset `off`. -/
def le32At (l : List Nat) (off : Nat) : Nat :=
  l.getD off 0 + 256 * l.getD (off + 1) 0 + 65536 * l.getD (off + 2) 0 +
    16777216 * l.getD (off + 3) 0

/-- Read the little-endian 32-bit value at the start of the list. -/
def le32 (l : List Nat) : Nat := le32At l 0

/-- Write a 32-bit value as four little-endian bytes. -/
def le32enc (n : Nat) : List Nat :=
  [n % 256, n / 256 % 256, n / 65536 % 256, n / 16777216 % 256]

/-- Reinterpret a 32-bit unsigned value as the signed `int32_t` the source
obtains by `*((int32_t*)payload)`. -/
def toInt32 (n : Nat) : Int :=
  if n % 4294967296 < 2147483648 then ((n % 4294967296 : Nat) : Int)
  else ((n % 4294967296 : Nat) : Int) - 4294967296

/-- The 32-bit pattern of a signed value, as stored by
`*((int32_t*)resp.payload) = position`. -/
def uint32OfInt (i : Int) : Nat := (i % 4294967296).toNat

/-! ## FrameCodec (COBS)

Modelled from the spec: `cobs.h` is not part of this source tree.  Section
4.2 describes zero-elimination byte stuffing: each run of bytes between zero
bytes is length-prefixed; decoding inverts this, failing when a length
prefix points past the buffer end or when the decoded result exceeds the
destination capacity. -/

/-- Modelled from the spec: decoder worker, structurally recursive on a fuel
argument (the fuel is the input length, which bounds the number of blocks).
Each step reads a length prefix `l`, copies the following `l - 1` bytes, and
restores a zero byte between consecutive blocks. -/
def cobsDecodeGo : Nat → List Nat → Option (List Nat)
  | _, [] => some []
  | 0, _ :: _ => none
  | fuel + 1, l :: rest =>
    if l = 0 then none
    else if rest.length < l - 1 then none
    else
      match cobsDecodeGo fuel (rest.drop (l - 1)) with
      | none => none
      | some tail =>
        if rest.drop (l - 1) = [] then some (rest.take (l - 1) ++ tail)
        else some (rest.take (l - 1) ++ 0 :: tail)

/-- Modelled from the spec: `COBS_decode(src, len, dst, dst_size)`; fails
(returns `none`, the source's negative return) on a malformed stuffing or
when the result would not fit the destination buffer of size `maxLen`. -/
def cobsDecode (input : List Nat) (maxLen : Nat) : Option (List Nat) :=
  match cobsDecodeGo input.length input with
  | none => none
  | some d => if d.length ≤ maxLen then some d else none

/-- Modelled from the spec: encoder worker; every run of nonzero bytes is
emitted with a length prefix, consuming one zero byte between runs per
recursive step (the fuel bounds the number of zero bytes). -/
def cobsEncodeGo : Nat → List Nat → List Nat
  | 0, data =>
    ((data.takeWhile (fun b => b != 0)).length + 1) ::
      data.takeWhile (fun b => b != 0)
  | fuel + 1, data =>
    match data.dropWhile (fun b => b != 0) with
    | [] =>
      ((data.takeWhile (fun b => b != 0)).length + 1) ::
        data.takeWhile (fun b => b != 0)
    | _ :: rest =>
      (((data.takeWhile (fun b => b != 0)).length + 1) ::
        data.takeWhile (fun b => b != 0)) ++ cobsEncodeGo fuel rest

/-- Modelled from the spec: `COBS_encode` of a whole buffer (the stuffed
bytes, without the trailing wire delimiter). -/
def cobsEncodeRaw (data : List Nat) : List Nat := cobsEncodeGo data.length data

/-! ## MotionAxis state and operations

Modelled from the spec: the `Stepper` class is declared in `Stepper.h`,
which is not part of this source tree; the operations below follow section
4.3 of the design document word by word. -/

/-- The four modes of an axis (spec section 3, AxisState.mode). -/
inductive AxisMode where
  | stopped
  | moveToTarget
  | runAtSpeed
  | homing
deriving DecidableEq, Repr

/-- AxisState of one motion axis (spec section 3). -/
structure AxisState where
  mode : AxisMode
  position : Int
  currentRate : Int
  targetRate : Int
  targetDistance : Int
  minSpeed : Int
  maxSpeed : Int
  accel : Int
  homePin : Nat
  homePolarity : Bool
deriving DecidableEq, Repr

/-- Clamp `v` into `[lo, hi]`. -/
def clampInt (v lo hi : Int) : Int := max lo (min v hi)

/-- Modelled from the spec: `moveSteps(distance)` fails and leaves the state
unchanged unless the axis is STOPPED; otherwise arms MOVE_TO_TARGET with
`target_rate = sign(distance) * max_speed`. -/
def stepperMoveSteps (d : Int) (a : AxisState) : Bool × AxisState :=
  if a.mode ≠ AxisMode.stopped then (false, a)
  else
    (true, { a with mode := AxisMode.moveToTarget, targetDistance := d,
                    targetRate := (if d < 0 then -1 else if 0 < d then 1 else 0) * a.maxSpeed })

/-- Modelled from the spec: `moveAtSpeed(speed)` always succeeds, sets mode
RUN_AT_SPEED and `target_rate = clamp(speed, -max_speed, max_speed)`; the
mode settles back to STOPPED only later, once the current rate reaches zero
under the update ticks. -/
def stepperMoveAtSpeed (v : Int) (a : AxisState) : Bool × AxisState :=
  (true, { a with mode := AxisMode.runAtSpeed,
                  targetRate := clampInt v (-a.maxSpeed) a.maxSpeed })

/-- Modelled from the spec: `isStopped()` is true iff mode is STOPPED and the
current rate is zero. -/
def stepperIsStopped (a : AxisState) : Bool :=
  a.mode == AxisMode.stopped && a.currentRate == 0

/-- Modelled from the spec: `setPosition(pos)` fails (no change) unless the
axis is STOPPED. -/
def stepperSetPosition (p : Int) (a : AxisState) : AxisState :=
  if a.mode == AxisMode.stopped then { a with position := p } else a

/-- Modelled from the spec: `home(speed, sensor_line, polarity)` fails unless
the axis is STOPPED; otherwise arms HOMING and records the sensor data. -/
def stepperHome (speed : Int) (pin : Nat) (pol : Bool) (a : AxisState) : AxisState :=
  if a.mode == AxisMode.stopped then
    { a with mode := AxisMode.homing, targetRate := speed,
             homePin := pin, homePolarity := pol }
  else a

/-- Modelled from the spec: `setSpeedLimits(min, max)` updates the bounds with
no validation. -/
def stepperSetSpeedLimits (mn mx : Int) (a : AxisState) : AxisState :=
  { a with minSpeed := mn, maxSpeed := mx }

/-- Modelled from the spec: `setAcceleration(a)` updates the bound with no
validation. -/
def stepperSetAcceleration (acc : Int) (a : AxisState) : AxisState :=
  { a with accel := acc }

/-- Axis state right after `initialize_hardware`: `initialize()` resets to
STOPPED with zero position and rate; then `setAcceleration(20000)` and
`setSpeedLimits(16, 4000)` are applied. -/
def axPowerOn : AxisState :=
  { mode := AxisMode.stopped, position := 0, currentRate := 0, targetRate := 0,
    targetDistance := 0, minSpeed := 16, maxSpeed := 4000, accel := 20000,
    homePin := 0, homePolarity := false }

/-! ## Device state and observable effects -/

/-- The device state visible to the dispatcher: the four axes, the levels of
the digital output lines, and oracles for the digital input pins and for TMC
register reads (`none` models a negative `readRegister` return). -/
structure DevState where
  steppers : List AxisState
  outputs : List Bool
  dinput : Nat → Bool
  tmcRead : Nat → Nat → Option Nat

/-- Device state at power-on: four initialized axes, both outputs low. -/
def initState : DevState :=
  { steppers := [axPowerOn, axPowerOn, axPowerOn, axPowerOn],
    outputs := [false, false],
    dinput := fun _ => false,
    tmcRead := fun _ _ => some 0 }

/-- Operations the dispatcher invokes on axes, driver chips and GPIO,
recorded so theorems can state that no side effect was executed. -/
inductive Effect where
  | moveSteps (id : Nat) (d : Int)
  | moveAtSpeed (id : Nat) (v : Int)
  | setSpeedLimits (id : Nat) (mn mx : Int)
  | setAcceleration (id : Nat) (a : Int)
  | setPosition (id : Nat) (p : Int)
  | home (id : Nat) (speed : Int) (sensorIdx : Int) (pol : Bool)
  | drvEnable (id : Nat) (en : Bool)
  | drvMicrosteps (id : Nat) (ms : Nat)
  | drvSetCurrent (id : Nat) (run hold delay : Nat)
  | drvReadReg (id : Nat) (addr : Nat)
  | drvWriteReg (id : Nat) (addr v : Nat)
  | gpioPut (pin : Nat) (v : Bool)
  | gpioGet (pin : Nat)
deriving DecidableEq, Repr

/-- A decoded response message (`struct Message` used for `tx_message`). -/
structure Response where
  dev_address : Nat
  command : Nat
  channel : Nat
  payload : List Nat
deriving DecidableEq, Repr

/-- The argument-error response: echoed command with the exception bit 0x80
set, empty payload. -/
def errResp (dev cmdB ch : Nat) : Response := ⟨dev, cmdB ||| 128, ch, []⟩

/-- The capability descriptor produced by `dump_configuration` with the
hardcoded board configuration (`snprintf` output, null terminator excluded;
\x7b and \x7d denote the literal braces of the JSON text). -/
def descriptorString : String :=
  "\x7b\"firmware_version\":\"1.0\",\"device_name\":\"FEEDER MB\",\"device_address\":0,\"stepper_count\":4,\"digital_input_count\":4,\"digital_output_count\":2,\"servo_count\":0\x7d"

/-- The descriptor as payload bytes. -/
def descriptorBytes : List Nat := descriptorString.toList.map Char.toNat

/-- Axis `i` of the device (the global `steppers[i]`). -/
def getAx (s : DevState) (i : Nat) : AxisState := s.steppers.getD i axPowerOn

/-- Replace axis `i` of the device. -/
def setAx (s : DevState) (i : Nat) (a : AxisState) : DevState :=
  { s with steppers := s.steppers.set i a }

/-- The sensor-channel to GPIO lookup `digital_input_pins[home_pin]` of the
HOME handler. The source indexes the table with a possibly negative `int`;
an index outside `[0, DIGITAL_INPUT_COUNT)` is an out-of-bounds array read,
modelled here as `none`. -/
def dipLookup (i : Int) : Option Nat :=
  if 0 ≤ i ∧ i < DIGITAL_INPUT_COUNT then some (digital_input_pins.getD i.toNat 0)
  else none

/-! ## CommandDispatcher: the `switch (msg->command)` of `main` -/

/-- The dispatcher body, as a function of the header bytes `dev` (byte 0),
`cmdB` (byte 1), `ch` (byte 2), `pl` (byte 3), the payload bytes, and the
device state. Returns the response (`none` on the `continue` escape of the
microsteps handler, which skips response emission entirely), the new device
state, and the list of collaborator operations invoked. -/
def dispatchCore (dev cmdB ch pl : Nat) (payload : List Nat) (s : DevState) :
    Option Response × DevState × List Effect :=
  match cmdB with
  | 1 =>
    (some ⟨dev, 1, ch, descriptorBytes⟩,
     { s with steppers := s.steppers.map (fun a => (stepperMoveAtSpeed 0 a).2),
              outputs := s.outputs.map (fun _ => false) },
     (List.range s.steppers.length).map (fun i => Effect.moveAtSpeed i 0) ++
       digital_output_pins.map (fun p => Effect.gpioPut p false))
  | 2 =>
    (some ⟨dev, 2, ch, payload.take pl⟩, s, [])
  | 16 =>
    if pl = 4 ∧ ch < STEPPER_COUNT then
      (some ⟨dev, 16, ch,
         le32enc (if (stepperMoveSteps (toInt32 (le32 payload)) (getAx s ch)).1 then 1 else 0)⟩,
       setAx s ch (stepperMoveSteps (toInt32 (le32 payload)) (getAx s ch)).2,
       [Effect.moveSteps ch (toInt32 (le32 payload))])
    else (some (errResp dev 16 ch), s, [])
  | 17 =>
    if pl = 4 ∧ ch < STEPPER_COUNT then
      (some ⟨dev, 17, ch,
         le32enc (if (stepperMoveAtSpeed (toInt32 (le32 payload)) (getAx s ch)).1 then 1 else 0)⟩,
       setAx s ch (stepperMoveAtSpeed (toInt32 (le32 payload)) (getAx s ch)).2,
       [Effect.moveAtSpeed ch (toInt32 (le32 payload))])
    else (some (errResp dev 17 ch), s, [])
  | 18 =>
    if pl = 8 ∧ ch < STEPPER_COUNT then
      (some ⟨dev, 18, ch, []⟩,
       setAx s ch (stepperSetSpeedLimits (Int.ofNat (le32 payload))
         (Int.ofNat (le32At payload 4)) (getAx s ch)),
       [Effect.setSpeedLimits ch (Int.ofNat (le32 payload)) (Int.ofNat (le32At payload 4))])
    else (some (errResp dev 18 ch), s, [])
  | 19 =>
    if pl = 4 ∧ ch < STEPPER_COUNT then
      (some ⟨dev, 19, ch, []⟩,
       setAx s ch (stepperSetAcceleration (Int.ofNat (le32 payload)) (getAx s ch)),
       [Effect.setAcceleration ch (Int.ofNat (le32 payload))])
    else (some (errResp dev 19 ch), s, [])
  | 20 =>
    if pl = 0 ∧ ch < STEPPER_COUNT then
      (some ⟨dev, 20, ch, le32enc (if stepperIsStopped (getAx s ch) then 1 else 0)⟩, s, [])
    else (some (errResp dev 20 ch), s, [])
  | 21 =>
    if pl = 0 ∧ ch < STEPPER_COUNT then
      (some ⟨dev, 21, ch, le32enc (uint32OfInt (getAx s ch).position)⟩, s, [])
    else (some (errResp dev 21 ch), s, [])
  | 22 =>
    if pl = 4 ∧ ch < STEPPER_COUNT then
      (some ⟨dev, 22, ch, []⟩,
       setAx s ch (stepperSetPosition (toInt32 (le32 payload)) (getAx s ch)),
       [Effect.setPosition ch (toInt32 (le32 payload))])
    else (some (errResp dev 22 ch), s, [])
  | 23 =>
    if pl = 12 ∧ ch < STEPPER_COUNT then
      if (DIGITAL_INPUT_COUNT : Int) ≤ toInt32 (le32At payload 4) then
        (some (errResp dev 23 ch), s, [])
      else
        (some ⟨dev, 23, ch, []⟩,
         setAx s ch (stepperHome (toInt32 (le32 payload))
           ((dipLookup (toInt32 (le32At payload 4))).getD 0)
           (payload.getD 8 0 != 0) (getAx s ch)),
         [Effect.home ch (toInt32 (le32 payload)) (toInt32 (le32At payload 4))
           (payload.getD 8 0 != 0)])
    else (some (errResp dev 23 ch), s, [])
  | 32 =>
    if pl = 4 ∧ ch < STEPPER_COUNT then
      (some ⟨dev, 32, ch, []⟩, s, [Effect.drvEnable ch (le32 payload != 0)])
    else (some (errResp dev 32 ch), s, [])
  | 33 =>
    if pl = 4 ∧ ch < STEPPER_COUNT then
      if le32 payload = 1 ∨ le32 payload = 2 ∨ le32 payload = 4 ∨ le32 payload = 8 ∨
          le32 payload = 16 ∨ le32 payload = 32 then
        (some ⟨dev, 33, ch, []⟩, s, [Effect.drvMicrosteps ch (le32 payload)])
      else
        (none, s, [])
    else (some (errResp dev 33 ch), s, [])
  | 34 =>
    if pl = 12 ∧ ch < STEPPER_COUNT then
      (some ⟨dev, 34, ch, []⟩, s,
       [Effect.drvSetCurrent ch (le32 payload) (le32At payload 4) (le32At payload 8)])
    else (some (errResp dev 34 ch), s, [])
  | 46 =>
    if pl = 4 ∧ ch < STEPPER_COUNT then
      match s.tmcRead ch (le32 payload) with
      | none => (some ⟨dev, 46 ||| 128, ch, []⟩, s, [Effect.drvReadReg ch (le32 payload)])
      | some v => (some ⟨dev, 46, ch, le32enc v⟩, s, [Effect.drvReadReg ch (le32 payload)])
    else (some (errResp dev 46 ch), s, [])
  | 47 =>
    if pl = 8 ∧ ch < STEPPER_COUNT then
      (some ⟨dev, 47, ch, []⟩, s, [Effect.drvWriteReg ch (le32 payload) (le32At payload 4)])
    else (some (errResp dev 47 ch), s, [])
  | 48 =>
    if pl = 0 ∧ ch < DIGITAL_INPUT_COUNT then
      (some ⟨dev, 48, ch,
         le32enc (if s.dinput (digital_input_pins.getD ch 0) then 1 else 0)⟩,
       s, [Effect.gpioGet (digital_input_pins.getD ch 0)])
    else (some (errResp dev 48 ch), s, [])
  | 49 =>
    if pl = 4 ∧ ch < DIGITAL_OUTPUT_COUNT then
      (some ⟨dev, 49, ch, []⟩,
       { s with outputs := s.outputs.set ch (le32 payload != 0) },
       [Effect.gpioPut (digital_output_pins.getD ch 0) (le32 payload != 0)])
    else (some (errResp dev 49 ch), s, [])
  | _ =>
    (some ⟨dev, 255, ch, []⟩, s, [])

/-- Dispatch of a verified message sitting in the receive buffer `buf` (the
contents of `rx_message`): the header bytes are bytes 0 to 3 and the payload
is the `payload_length` bytes from offset 4 on. -/
def dispatch (buf : List Nat) (s : DevState) :
    Option Response × DevState × List Effect :=
  dispatchCore (buf.getD 0 0) (buf.getD 1 0) (buf.getD 2 0) (buf.getD 3 0)
    ((buf.drop 4).take (buf.getD 3 0)) s

/-! ## Response emission and the receive pipeline of `main` -/

/-- The wire bytes of a response before checksum: header then payload. -/
def respBytes (r : Response) : List Nat :=
  [r.dev_address, r.command, r.channel, r.payload.length] ++ r.payload

/-- Response emission: append the CRC, COBS-encode into the 255-byte
transmit buffer; an encoding failure (result too large) produces no bytes,
as the source then `continue`s. -/
def emitFrame (r : Response) : List Nat :=
  if (cobsEncodeRaw (respBytes r ++ le32enc (crc32 (respBytes r)))).length ≤ 255 then
    cobsEncodeRaw (respBytes r ++ le32enc (crc32 (respBytes r)))
  else []

/-- Processing of one received frame by the reception loop of `main`:
`stuffed` is the byte run between wire delimiters (`rx_buffer`), `stale` the
previous contents of `rx_message` beyond what the decoder overwrites, `s`
the device state. Mirrors, in order: the 8-byte minimum check on the
received (stuffed) length, the 255-byte buffer capacity, COBS decoding into
the 254-byte message buffer, the device-address check on byte 0, the CRC
check over all but the trailing four bytes, and dispatch. Returns the
emitted output bytes, the new device state, and the invoked effects. -/
def runFrame (stuffed stale : List Nat) (s : DevState) :
    List Nat × DevState × List Effect :=
  if stuffed.length < 8 then ([], s, [])
  else if 255 < stuffed.length then ([], s, [])
  else
    match cobsDecode stuffed 254 with
    | none => ([], s, [])
    | some d =>
      if (d ++ stale.drop d.length).getD 0 0 ≠ DEVICE_ADDRESS then ([], s, [])
      else if le32 (((d ++ stale.drop d.length).drop (d.length - 4)).take 4) ≠
          crc32 ((d ++ stale.drop d.length).take (d.length - 4)) then ([], s, [])
      else if 4 < d.length then
        match dispatch (d ++ stale.drop d.length) s with
        | (none, s1, effs) => ([], s1, effs)
        | (some r, s1, effs) => (emitFrame r, s1, effs)
      else ([], s, [])

/-! ## Command tables used by the claims -/

/-- The commands whose expected payload length is fixed and checked by the
dispatcher, with that length (INIT checks no length, PING is
variable-length). -/
def fixedLen : List (Nat × Nat) :=
  [(16, 4), (17, 4), (18, 8), (19, 4), (20, 0), (21, 0), (22, 4), (23, 12),
   (32, 4), (33, 4), (34, 12), (46, 4), (47, 8), (48, 0), (49, 4)]

/-- The per-axis commands: stepper motion commands and stepper driver
commands. -/
def perAxisCmds : List Nat := [16, 17, 18, 19, 20, 21, 22, 23, 32, 33, 34, 46, 47]

/-! ## Concrete frames and states used to settle individual claims -/

/-- A verified DRV_SET_MICROSTEPS request before checksum: address 0,
command 0x21, channel 1, payload length 4, microsteps value 5 (invalid). -/
def c2msg : List Nat := [0, 33, 1, 4, 5, 0, 0, 0]

/-- The stuffed wire frame of `c2msg` with its CRC appended. -/
def c2frame : List Nat := cobsEncodeRaw (c2msg ++ le32enc (crc32 c2msg))

/-- HOME payload with speed 100, sensor-channel -1 (0xFFFFFFFF) and
polarity 1, padded to the expected 12 bytes. -/
def c4payload : List Nat := [100, 0, 0, 0, 255, 255, 255, 255, 1, 0, 0, 0]

/-- A 3-byte message (address 0, unknown command 0x7f, channel 0) whose
frame with CRC decodes to only 7 bytes. -/
def c5msg : List Nat := [0, 127, 0]

/-- The stuffed wire frame of `c5msg` with its CRC appended: 8 bytes on the
wire, 7 bytes decoded. -/
def c5frame : List Nat := cobsEncodeRaw (c5msg ++ le32enc (crc32 c5msg))

/-- A stuffed frame whose decoded device address byte is 1, not the unit's
address 0. -/
def c8frame : List Nat := cobsEncodeRaw [1, 2, 3, 4, 5, 6, 7, 8]

/-- Device state after `moveAtSpeed(5)` was issued on axis 0 of the power-on
state. -/
def c9state : DevState :=
  { initState with
    steppers := [(stepperMoveAtSpeed 5 axPowerOn).2, axPowerOn, axPowerOn, axPowerOn] }

/-! ## Shared lemmas -/

/-- Lists equal on their first `n` elements agree at any position below `n`. -/
theorem getD_of_take_eq {l1 l2 : List Nat} {n i : Nat}
    (h : l1.take n = l2.take n) (hi : i < n) : l1.getD i 0 = l2.getD i 0 := by
  have h1 : (l1.take n)[i]? = (l2.take n)[i]? := by rw [h]
  rw [List.getElem?_take, List.getElem?_take, if_pos hi, if_pos hi] at h1
  simp [List.getD_eq_getElem?_getD, h1]

/-! ## Claim theorems -/

/-- Claim C1. The spec intends a verified DRV_SET_MICROSTEPS request with a
valid axis and an invalid 4-byte value to get an argument-error response.
Evaluating the dispatcher at such a request (channel 0, value 3) shows the
code instead takes the `continue` escape: no response at all is produced, no
effect is invoked, and the state is unchanged. -/
theorem claimC1_eval :
    (dispatchCore 0 33 0 4 [3, 0, 0, 0] initState).1 = none ∧
    (dispatchCore 0 33 0 4 [3, 0, 0, 0] initState).2.2 = [] ∧
    (dispatchCore 0 33 0 4 [3, 0, 0, 0] initState).2.1 = initState :=
  ⟨by decide, by decide, rfl⟩

/-- Claim C2. The spec says every verified frame receives exactly one
response. The verified frame `c2frame` (DRV_SET_MICROSTEPS, channel 1,
value 5) decodes correctly, matches the address, passes the CRC check, yet
the firmware emits zero output bytes for it because of the `continue`
escape in the microsteps handler. -/
theorem claimC2_eval :
    cobsDecode c2frame 254 = some (c2msg ++ le32enc (crc32 c2msg)) ∧
    8 ≤ c2frame.length ∧ c2frame.length ≤ 255 ∧
    (runFrame c2frame [] initState).1 = [] ∧
    (runFrame c2frame [] initState).2.2 = [] :=
  ⟨by decide, by decide, by decide, by decide, by decide⟩

/-- Claim C3, counterexample. INIT (expected input length 0 per the spec
table) with payload length 1 is not rejected: the response carries command
code 0x01 without the exception bit, a non-empty descriptor payload, and the
reset side effects do run. -/
theorem claimC3_cex :
    (dispatchCore 0 1 0 1 [0] initState).1 = some ⟨0, 1, 0, descriptorBytes⟩ ∧
    descriptorBytes.length ≠ 0 ∧
    (dispatchCore 0 1 0 1 [0] initState).2.2 ≠ [] :=
  ⟨by decide, by decide, by decide⟩

/-- Claim C3, amended. For every command with a fixed, checked payload
length (all commands except INIT, which ignores the payload length, and
PING, which is variable-length), any other payload length yields the
exception response `command ||| 0x80` with empty payload, an unchanged
state, and no invoked effect. -/
theorem claimC3_amended (dev cmdB ch pl k : Nat) (payload : List Nat) (s : DevState)
    (hmem : (cmdB, k) ∈ fixedLen) (hne : pl ≠ k) :
    dispatchCore dev cmdB ch pl payload s = (some (errResp dev cmdB ch), s, []) := by
  fin_cases hmem <;> simp [dispatchCore, hne]

/-- Witness for the amended claim C3 at MOVE_STEPS with payload length 5. -/
theorem claimC3_witness :
    (16, 4) ∈ fixedLen ∧ (5 : Nat) ≠ 4 ∧
    dispatchCore 0 16 0 5 [] initState = (some (errResp 0 16 0), initState, []) :=
  ⟨by decide, by decide, claimC3_amended 0 16 0 5 4 [] initState (by decide) (by decide)⟩

/-- Claim C4. A verified HOME request (channel 0, payload length 12) whose
4-byte signed sensor-channel value is -1 passes the handler's only bounds
check (`home_pin >= DIGITAL_INPUT_COUNT`), so the code arms homing through
an out-of-bounds read of `digital_input_pins` (modelled by
`dipLookup (-1) = none`) and answers with the non-exception response 0x17 —
against the claim's required argument-error response. -/
theorem claimC4_eval :
    (dispatchCore 0 23 0 12 c4payload initState).1 = some ⟨0, 23, 0, []⟩ ∧
    (dispatchCore 0 23 0 12 c4payload initState).2.2 = [Effect.home 0 100 (-1) true] ∧
    dipLookup (-1) = none ∧
    ¬(0 ≤ (-1 : Int) ∧ (-1 : Int) < DIGITAL_INPUT_COUNT) :=
  ⟨by decide, by decide, by decide, by decide⟩

/-- Claim C5, counterexample. The 8-byte stuffed frame `c5frame` decodes to
only 7 bytes — below the claimed 8-byte minimum — yet it passes the
reception checks (the source compares the stuffed length `rx_buffer_pos`,
not the decoded length, against 8), is dispatched, and produces output
bytes. -/
theorem claimC5_cex :
    c5frame.length = 8 ∧
    cobsDecode c5frame 254 = some (c5msg ++ le32enc (crc32 c5msg)) ∧
    (c5msg ++ le32enc (crc32 c5msg)).length = 7 ∧
    (runFrame c5frame [] initState).1 ≠ [] :=
  ⟨by decide, by decide, by decide, by decide⟩

/-- Claim C5, amended. Every received frame whose stuffed (wire) length is
below 8 bytes is treated as empty and ignored: it is never dispatched and
produces no output bytes and no effect. -/
theorem claimC5_amended (stuffed stale : List Nat) (s : DevState)
    (h : stuffed.length < 8) : runFrame stuffed stale s = ([], s, []) := by
  unfold runFrame
  rw [if_pos h]

/-- Witness for the amended claim C5 on a 3-byte frame. -/
theorem claimC5_witness :
    ([1, 2, 3] : List Nat).length < 8 ∧
    runFrame [1, 2, 3] [] initState = ([], initState, []) :=
  ⟨by decide, claimC5_amended [1, 2, 3] [] initState (by decide)⟩

/-- Claim C6. The checksum is the standard reflected CRC-32: the source
translation maps "123456789" to 0xCBF43926, and agrees with the algorithm
as worded in the spec (`crc32Spec`) on every input. -/
theorem claimC6_crc32 :
    crc32 [49, 50, 51, 52, 53, 54, 55, 56, 57] = 0xCBF43926 ∧
    ∀ data : List Nat, crc32 data = crc32Spec data := by
  constructor
  · decide
  · intro data
    have hstep : crc32Update = crcSpecStep := by
      funext r
      by_cases h : r % 2 = 1 <;>
        simp [crc32Update, crcSpecStep, Nat.shiftRight_one, Nat.testBit_zero, h]
    have hbyte : crc32Byte = crcSpecByte := by
      funext c b
      unfold crc32Byte crcSpecByte
      rw [hstep]
    unfold crc32 crc32Spec
    rw [hbyte]

/-- Claim C7. Every per-axis command (stepper motion and stepper driver
commands) sent with a channel at or above the axis count 4 yields the
exception response `command ||| 0x80` with empty payload, leaves the state
unchanged, and invokes no axis or driver operation. -/
theorem claimC7 (dev cmdB ch pl : Nat) (payload : List Nat) (s : DevState)
    (hc : cmdB ∈ perAxisCmds) (hch : STEPPER_COUNT ≤ ch) :
    dispatchCore dev cmdB ch pl payload s = (some (errResp dev cmdB ch), s, []) := by
  have hch4 : ¬ ch < STEPPER_COUNT := Nat.not_lt.mpr hch
  fin_cases hc <;> simp [dispatchCore, hch4]

/-- Witness for claim C7 at MOVE_STEPS with channel 4. -/
theorem claimC7_witness :
    16 ∈ perAxisCmds ∧ STEPPER_COUNT ≤ 4 ∧
    dispatchCore 0 16 4 0 [] initState = (some (errResp 0 16 4), initState, []) :=
  ⟨by decide, by decide, claimC7 0 16 4 0 [] initState (by decide) (by decide)⟩

/-- Claim C8. A received frame that decodes but whose device-address byte
differs from the unit's address, or whose trailing 4-byte checksum does not
equal the CRC-32 of the preceding bytes, is dropped silently: no dispatch,
zero output bytes, no state change, no effect. -/
theorem claimC8 (stuffed stale : List Nat) (s : DevState) (d : List Nat)
    (hdec : cobsDecode stuffed 254 = some d)
    (hbad : (d ++ stale.drop d.length).getD 0 0 ≠ DEVICE_ADDRESS ∨
      le32 (((d ++ stale.drop d.length).drop (d.length - 4)).take 4) ≠
        crc32 ((d ++ stale.drop d.length).take (d.length - 4))) :
    runFrame stuffed stale s = ([], s, []) := by
  unfold runFrame
  by_cases h8 : stuffed.length < 8
  · rw [if_pos h8]
  rw [if_neg h8]
  by_cases h255 : 255 < stuffed.length
  · rw [if_pos h255]
  rw [if_neg h255]
  simp only [hdec]
  rcases hbad with h | h
  · rw [if_pos h]
  by_cases h0 : (d ++ stale.drop d.length).getD 0 0 ≠ DEVICE_ADDRESS
  · rw [if_pos h0]
  rw [if_neg h0, if_pos h]

/-- Witness for claim C8 on a frame whose decoded address byte is 1. -/
theorem claimC8_witness :
    cobsDecode c8frame 254 = some [1, 2, 3, 4, 5, 6, 7, 8] ∧
    (([1, 2, 3, 4, 5, 6, 7, 8] : List Nat) ++
        ([] : List Nat).drop ([1, 2, 3, 4, 5, 6, 7, 8] : List Nat).length).getD 0 0 ≠
      DEVICE_ADDRESS ∧
    runFrame c8frame [] initState = ([], initState, []) :=
  ⟨by decide, by decide,
    claimC8 c8frame [] initState [1, 2, 3, 4, 5, 6, 7, 8] (by decide) (Or.inl (by decide))⟩

/-- Claim C9, counterexample. After `moveAtSpeed(5)` on axis 0 and a
processed INIT command, `isStopped()` on axis 0 is false immediately once
the INIT response is produced: INIT commands deceleration via
`moveAtSpeed(0)`, which leaves the axis in RUN_AT_SPEED, and the mode
settles to STOPPED only at a later motion update tick. -/
theorem claimC9_cex :
    stepperIsStopped
        ((dispatchCore 0 1 0 0 [] c9state).2.1.steppers.getD 0 axPowerOn) = false ∧
    (dispatchCore 0 1 0 0 [] c9state).1 = some ⟨0, 1, 0, descriptorBytes⟩ :=
  ⟨by decide, by decide⟩

/-- Claim C9, amended. Once the INIT response has been produced, every
digital output line is low and every axis has been commanded to decelerate:
mode RUN_AT_SPEED with target rate 0 (so `isStopped()` becomes true only
after the current rate reaches 0 and the mode settles at a later update
tick, not necessarily immediately). -/
theorem claimC9_amended (dev ch pl : Nat) (payload : List Nat) (s : DevState)
    (hmax : ∀ a ∈ s.steppers, 0 ≤ a.maxSpeed) :
    (dispatchCore dev 1 ch pl payload s).1 = some ⟨dev, 1, ch, descriptorBytes⟩ ∧
    (∀ b ∈ (dispatchCore dev 1 ch pl payload s).2.1.outputs, b = false) ∧
    (∀ a ∈ (dispatchCore dev 1 ch pl payload s).2.1.steppers,
      a.mode = AxisMode.runAtSpeed ∧ a.targetRate = 0) := by
  refine ⟨rfl, ?_, ?_⟩
  · intro b hb
    simp only [dispatchCore, List.mem_map] at hb
    obtain ⟨x, -, h⟩ := hb
    exact h.symm
  · intro a ha
    simp only [dispatchCore, List.mem_map] at ha
    obtain ⟨a0, ha0, h⟩ := ha
    subst h
    refine ⟨rfl, ?_⟩
    have := hmax a0 ha0
    simp only [stepperMoveAtSpeed, clampInt]
    omega

/-- Witness for the amended claim C9 at the power-on state. -/
theorem claimC9_witness :
    (∀ a ∈ initState.steppers, 0 ≤ a.maxSpeed) ∧
    ((dispatchCore 0 1 0 0 [] initState).1 = some ⟨0, 1, 0, descriptorBytes⟩ ∧
      (∀ b ∈ (dispatchCore 0 1 0 0 [] initState).2.1.outputs, b = false) ∧
      (∀ a ∈ (dispatchCore 0 1 0 0 [] initState).2.1.steppers,
        a.mode = AxisMode.runAtSpeed ∧ a.targetRate = 0)) :=
  ⟨by decide, claimC9_amended 0 0 0 [] initState (by decide)⟩

/-- Claim C10. The dispatcher consults only the four header bytes, the
first `payload_length` payload bytes and the device state: two receive
buffers that agree on that prefix — whatever bytes or length follow it —
are dispatched identically (same response, same state, same effects). -/
theorem claimC10 (b1 b2 : List Nat) (s : DevState)
    (h : b1.take (4 + b1.getD 3 0) = b2.take (4 + b1.getD 3 0)) :
    dispatch b1 s = dispatch b2 s := by
  have h0 : b1.getD 0 0 = b2.getD 0 0 := getD_of_take_eq h (by omega)
  have h1 : b1.getD 1 0 = b2.getD 1 0 := getD_of_take_eq h (by omega)
  have h2 : b1.getD 2 0 = b2.getD 2 0 := getD_of_take_eq h (by omega)
  have h3 : b1.getD 3 0 = b2.getD 3 0 := getD_of_take_eq h (by omega)
  have hp : (b1.drop 4).take (b1.getD 3 0) = (b2.drop 4).take (b1.getD 3 0) := by
    have hd := congrArg (List.drop 4) h
    rwa [List.drop_take, List.drop_take, Nat.add_sub_cancel_left] at hd
  unfold dispatch
  rw [h0, h1, h2, hp, h3]

/-- Witness for claim C10: a frame with a spurious byte beyond the declared
payload is dispatched exactly like its truncation. -/
theorem claimC10_witness :
    ([0, 2, 0, 2, 65, 66, 99] : List Nat).take
        (4 + ([0, 2, 0, 2, 65, 66, 99] : List Nat).getD 3 0) =
      ([0, 2, 0, 2, 65, 66] : List Nat).take
        (4 + ([0, 2, 0, 2, 65, 66, 99] : List Nat).getD 3 0) ∧
    dispatch [0, 2, 0, 2, 65, 66, 99] initState =
      dispatch [0, 2, 0, 2, 65, 66] initState :=
  ⟨by decide, claimC10 [0, 2, 0, 2, 65, 66, 99] [0, 2, 0, 2, 65, 66] initState (by decide)⟩

end Sorter
